import Mathlib

/-
  Verification development for the soapWebsocketC repository: a WebRTC
  sender/receiver pair (sender.c, receiver.c) that exchanges SDP offers,
  SDP answers and ICE candidates as JSON text frames over a websocket,
  and attaches an H.264 decode chain to the incoming webrtcbin pad.

  The embedding models:
  - JSON documents (a wire text frame is modelled by its parsed JSON
    document; the byte-level parse/serialize steps belong to the external
    json-glib library, so a received frame is an `Option Json`, `none`
    standing for a frame the JSON parser rejects);
  - the json-glib object accessors used by the source, including their
    NULL propagation and default values (g_return_val_if_fail guards);
  - the C integer casts the source performs on media-line indices
    (guint -> gint on encode, gint64 -> gint -> guint on decode);
  - the message construction done by send_sdp / send_ice_candidate;
  - both handle_server_message handlers (receiver.c and sender.c) as
    pure functions from a frame to an action, interpreted as the list
    of Media Engine / transport calls the handler performs;
  - the receiver negotiation machinery (set-remote-description promise
    with on_offer_set, create-answer promise with on_answer_created)
    as an event-step machine over pending-promise counters;
  - on_incoming_stream (the stream attachment policy over
    video_chain_built) and cleanup_and_quit (teardown).
-/

/-- A JSON value, as produced by json-glib's parser.  Numbers are
restricted to integers: every number this protocol carries is an
integer (`sdpMLineIndex`), and no claim depends on doubles. -/
inductive Json where
  | null : Json
  | bool (b : Bool) : Json
  | int (v : Int) : Json
  | str (s : String) : Json
  | arr (elems : List Json) : Json
  | obj (members : List (String × Json)) : Json

/-- Member lookup in a JSON object.  json-glib keeps the last value set
for a key, so the last binding wins (irrelevant for the encoders, which
never produce duplicate keys). -/
def memberLookup : List (String × Json) → String → Option Json
  | [], _ => none
  | (k, v) :: rest, key =>
      match memberLookup rest key with
      | some r => some r
      | none => if k = key then some v else none

/-- Model of json_object_has_member. -/
def json_object_has_member (o : List (String × Json)) (k : String) : Bool :=
  (memberLookup o k).isSome

/-- Model of json_object_get_object_member: returns the member as an
object, or NULL (`none`) when the member is missing or not an object
(json-glib logs a critical and returns NULL in those cases). -/
def json_object_get_object_member (o : List (String × Json)) (k : String) :
    Option (List (String × Json)) :=
  match memberLookup o k with
  | some (.obj m) => some m
  | _ => none

/-- Model of json_object_get_string_member applied to a possibly-NULL
object pointer: NULL object, missing member, or non-string member all
yield NULL (`none`), via json-glib's g_return_val_if_fail guards. -/
def json_object_get_string_member (o : Option (List (String × Json)))
    (k : String) : Option String :=
  match o with
  | none => none
  | some ob =>
      match memberLookup ob k with
      | some (.str s) => some s
      | _ => none

/-- Model of json_object_get_int_member applied to a possibly-NULL
object pointer: NULL object, missing member, or non-integer member
yield the guard default 0. -/
def json_object_get_int_member (o : Option (List (String × Json)))
    (k : String) : Int :=
  match o with
  | none => 0
  | some ob =>
      match memberLookup ob k with
      | some (.int v) => v
      | _ => 0

/-- Two's-complement truncation of an integer to 32 bits, the effect of
a C cast to gint (also of gint64 -> gint narrowing, since 2^32 divides
2^64 truncation factors). -/
def gint32_of_int (v : Int) : Int :=
  let r := v % 4294967296
  if r < 2147483648 then r else r - 4294967296

/-- The C cast `(gint) mlineindex` applied to an unsigned 32-bit value,
as performed by send_ice_candidate. -/
def gint_of_guint (n : Nat) : Int :=
  gint32_of_int (Int.ofNat n)

/-- Reinterpretation of a gint as a guint, the effect of passing a gint
where the add-ice-candidate signal expects a guint. -/
def guint_of_gint (v : Int) : Nat :=
  (v % 4294967296).toNat

/-- The SDP description kind carried by a signaling message. -/
inductive SdpKind where
  | offer : SdpKind
  | answer : SdpKind
deriving DecidableEq

/-- The wire string for an SDP kind, as chosen in send_sdp
(`desc->type == GST_WEBRTC_SDP_TYPE_OFFER ? "offer" : "answer"`). -/
def sdpTypeString : SdpKind → String
  | .offer => "offer"
  | .answer => "answer"

/-- The data model's SignalingMessage: an SDP description or an ICE
candidate with its unsigned media-line index. -/
inductive SignalingMessage where
  | sdp (kind : SdpKind) (sdpText : String) : SignalingMessage
  | ice (candidate : String) (mediaLineIndex : Nat) : SignalingMessage
deriving DecidableEq

/-- The JSON document built by send_sdp (identical in sender.c and
receiver.c): an object with an "sdp" member holding "type" and "sdp"
string members, in that insertion order. -/
def send_sdp_json (kind : SdpKind) (sdpText : String) : Json :=
  .obj [(("sdp"), .obj [(("type"), .str (sdpTypeString kind)),
                        (("sdp"), .str sdpText)])]

/-- The JSON document built by send_ice_candidate (identical in both
files): an object with an "ice" member holding the candidate string and
the media-line index written through the source's `(gint) mlineindex`
cast. -/
def send_ice_json (mlineindex : Nat) (candidate : String) : Json :=
  .obj [(("ice"), .obj [(("candidate"), .str candidate),
                        (("sdpMLineIndex"), .int (gint_of_guint mlineindex))])]

/-- The Signaling Codec's encode, assembled from the two construction
sites in the source (send_sdp and send_ice_candidate). -/
def encode : SignalingMessage → Json
  | .sdp kind sdpText => send_sdp_json kind sdpText
  | .ice candidate mediaLineIndex => send_ice_json mediaLineIndex candidate

/-- The Signaling Codec's decode.  The source interleaves decoding with
handling inside the two handle_server_message functions; this function
performs exactly the member extraction those handlers perform (member
dispatch on "sdp" before "ice", json-glib accessors, and the source's
gint truncation and guint reinterpretation of the wire integer),
restricted to frames carrying the full wire shape; it returns `none`
for any frame lacking it.  The handlers themselves are modelled
separately below and are compared against this decoder. -/
def decode (j : Json) : Option SignalingMessage :=
  match j with
  | .obj o =>
      if json_object_has_member o ("sdp") then
        match json_object_get_object_member o ("sdp") with
        | some s =>
            match json_object_get_string_member (some s) ("type"),
                  json_object_get_string_member (some s) ("sdp") with
            | some ty, some tx =>
                if ty = "offer" then some (.sdp .offer tx)
                else if ty = "answer" then some (.sdp .answer tx)
                else none
            | _, _ => none
        | none => none
      else if json_object_has_member o ("ice") then
        match json_object_get_object_member o ("ice") with
        | some i =>
            match json_object_get_string_member (some i) ("candidate"),
                  memberLookup i ("sdpMLineIndex") with
            | some c, some (.int v) =>
                some (.ice c (guint_of_gint (gint32_of_int v)))
            | _, _ => none
        | none => none
      else none
  | _ => none

/-- A call the signaling code makes on its collaborators: diagnostics,
Media Engine (webrtcbin) signal emissions, and outgoing frames. -/
inductive Call where
  | log (message : String) : Call
  | setRemoteDescription (kind : SdpKind) (sdpText : String) : Call
  | createOffer : Call
  | createAnswer : Call
  | setLocalDescription (kind : SdpKind) (sdpText : String) : Call
  | sendFrame (frame : Json) : Call
  | addIceCandidate (mlineindex : Nat) (candidate : Option String) : Call

/-- True exactly on addIceCandidate calls. -/
def Call.isAddIce : Call → Bool
  | .addIceCandidate _ _ => true
  | _ => false

/-- True exactly on createAnswer calls. -/
def Call.isCreateAnswer : Call → Bool
  | .createAnswer => true
  | _ => false

/-- True exactly on createOffer calls. -/
def Call.isCreateOffer : Call → Bool
  | .createOffer => true
  | _ => false

namespace Receiver

/-- What one invocation of receiver.c's handle_server_message does with
a frame.  `crash` is the undefined behavior reached when the frame has
an "sdp" object whose "type" is "offer" but whose "sdp" member is not a
string: the source calls strlen on the NULL returned by
json_object_get_string_member. -/
inductive Action where
  | silent : Action
  | crash : Action
  | applyOffer (sdpText : String) : Action
  | forwardIce (mlineindex : Nat) (candidate : Option String) : Action
deriving DecidableEq

/-- receiver.c handle_server_message, lines 280-339.  The input is the
parse outcome of a received text frame (`none`: json_parser rejected
it).  Dispatch: parse failure and non-object roots return silently; an
object is checked for an "sdp" member first, else an "ice" member, else
nothing happens.  In the sdp branch only type "offer" acts; in the ice
branch candidate and index are extracted with the json-glib defaults
and forwarded unconditionally (the index through the source's
gint64 -> gint assignment and the signal's guint parameter). -/
def handle_server_message (frame : Option Json) : Action :=
  match frame with
  | none => .silent
  | some j =>
      match j with
      | .obj o =>
          if json_object_has_member o ("sdp") then
            let sdpobj := json_object_get_object_member o ("sdp")
            let sdptype := json_object_get_string_member sdpobj ("type")
            let sdptext := json_object_get_string_member sdpobj ("sdp")
            if sdptype = some ("offer") then
              match sdptext with
              | none => .crash
              | some t => .applyOffer t
            else .silent
          else if json_object_has_member o ("ice") then
            let iceobj := json_object_get_object_member o ("ice")
            let candidate := json_object_get_string_member iceobj ("candidate")
            let mline := json_object_get_int_member iceobj ("sdpMLineIndex")
            .forwardIce (guint_of_gint (gint32_of_int mline)) candidate
          else .silent
      | _ => .silent

/-- The calls the receiver handler performs for each action, in source
order: the offer branch logs then emits set-remote-description (with
the on_offer_set promise); the ice branch emits add-ice-candidate; a
crash happens before any call (strlen precedes the g_print and the
signal emission). -/
def callsOf : Action → List Call
  | .silent => []
  | .crash => []
  | .applyOffer t =>
      [.log ("[receiver] Received SDP offer -> set-remote-description"),
       .setRemoteDescription .offer t]
  | .forwardIce m c => [.addIceCandidate m c]

/-- Handling a sequence of received frames in arrival order: the calls
concatenate; a crashing frame kills the process, so nothing later runs. -/
def run : List (Option Json) → List Call
  | [] => []
  | f :: rest =>
      match handle_server_message f with
      | .crash => []
      | a => callsOf a ++ run rest

end Receiver

namespace Sender

/-- What one invocation of sender.c's handle_server_message does with a
frame; `crash` mirrors the receiver's strlen-on-NULL, reached when
"type" is "answer" but the "sdp" member is not a string. -/
inductive Action where
  | silent : Action
  | crash : Action
  | applyAnswer (sdpText : String) : Action
  | forwardIce (mlineindex : Nat) (candidate : Option String) : Action
deriving DecidableEq

/-- sender.c handle_server_message, lines 170-235: same dispatch as the
receiver, but in the sdp branch only type "answer" acts. -/
def handle_server_message (frame : Option Json) : Action :=
  match frame with
  | none => .silent
  | some j =>
      match j with
      | .obj o =>
          if json_object_has_member o ("sdp") then
            let sdpobj := json_object_get_object_member o ("sdp")
            let sdptype := json_object_get_string_member sdpobj ("type")
            let sdptext := json_object_get_string_member sdpobj ("sdp")
            if sdptype = some ("answer") then
              match sdptext with
              | none => .crash
              | some t => .applyAnswer t
            else .silent
          else if json_object_has_member o ("ice") then
            let iceobj := json_object_get_object_member o ("ice")
            let candidate := json_object_get_string_member iceobj ("candidate")
            let mline := json_object_get_int_member iceobj ("sdpMLineIndex")
            .forwardIce (guint_of_gint (gint32_of_int mline)) candidate
          else .silent
      | _ => .silent

/-- The calls the sender handler performs for each action, in source
order (the answer branch applies the remote description synchronously
with an interrupted promise; no create request is ever emitted from
message handling). -/
def callsOf : Action → List Call
  | .silent => []
  | .crash => []
  | .applyAnswer t =>
      [.log ("[sender] Received SDP answer -> set-remote-description"),
       .setRemoteDescription .answer t]
  | .forwardIce m c => [.addIceCandidate m c]

/-- Handling a sequence of received frames in arrival order. -/
def run : List (Option Json) → List Call
  | [] => []
  | f :: rest =>
      match handle_server_message f with
      | .crash => []
      | a => callsOf a ++ run rest

end Sender

namespace Receiver

/-- The receiver session's negotiation bookkeeping.  The source has no
negotiation-state variable; the only negotiation state is the set of
outstanding GstPromises: `pendingOfferSet` counts set-remote-description
promises registered with on_offer_set, `pendingAnswer` counts
create-answer promises registered with on_answer_created.  `crashed`
records that a frame hit the handler's undefined behavior; `wsOpen`
models the soup connection state checked by send_sdp. -/
structure NegState where
  pendingOfferSet : Nat
  pendingAnswer : Nat
  crashed : Bool
  wsOpen : Bool
deriving DecidableEq

/-- Session start: no outstanding promises, websocket open. -/
def negInit : NegState :=
  ⟨0, 0, false, true⟩

/-- An event delivered to the receiver's main loop: a signaling frame,
the completion of a set-remote-description promise (on_offer_set), or
the delivery of a created answer (on_answer_created). -/
inductive NegEvent where
  | frame (f : Option Json) : NegEvent
  | offerSetComplete : NegEvent
  | answerCreated (sdpText : String) : NegEvent

/-- One main-loop dispatch of the receiver.  A frame runs
handle_server_message; an offer frame additionally registers an
on_offer_set promise.  on_offer_set (offerSetComplete) fires once per
registered promise and emits create-answer, registering an
on_answer_created promise.  on_answer_created emits
set-local-description, logs, and sends the encoded answer if the
websocket is open (send_sdp's state check). -/
def negStep (s : NegState) (e : NegEvent) : NegState × List Call :=
  if s.crashed then (s, []) else
  match e with
  | .frame f =>
      match handle_server_message f with
      | .crash => ({ s with crashed := true }, [])
      | .applyOffer t =>
          ({ s with pendingOfferSet := s.pendingOfferSet + 1 },
           callsOf (.applyOffer t))
      | a => (s, callsOf a)
  | .offerSetComplete =>
      if s.pendingOfferSet > 0 then
        ({ s with pendingOfferSet := s.pendingOfferSet - 1,
                  pendingAnswer := s.pendingAnswer + 1 },
         [.createAnswer])
      else (s, [])
  | .answerCreated t =>
      if s.pendingAnswer > 0 then
        ({ s with pendingAnswer := s.pendingAnswer - 1 },
         [.setLocalDescription .answer t,
          .log ("[receiver] Sending SDP answer")] ++
         (if s.wsOpen then [.sendFrame (send_sdp_json .answer t)] else []))
      else (s, [])

/-- Running a sequence of main-loop events from a state, concatenating
the calls in dispatch order. -/
def negRun (s : NegState) : List NegEvent → NegState × List Call
  | [] => (s, [])
  | e :: rest =>
      let p := negStep s e
      let q := negRun p.1 rest
      (q.1, p.2 ++ q.2)

/-- True on events that are frames the handler treats as an SDP offer. -/
def NegEvent.isOfferFrame : NegEvent → Bool
  | .frame f =>
      match handle_server_message f with
      | .applyOffer _ => true
      | _ => false
  | _ => false

end Receiver

/-- The direction of the pad handed to the pad-added callback. -/
inductive PadDirection where
  | src : PadDirection
  | sink : PadDirection
  | unknown : PadDirection
deriving DecidableEq

/-- The first caps structure of the incoming pad: structure name and
the "encoding-name" field (either may be absent, matching the source's
NULL checks). -/
structure CapsInfo where
  mediaType : Option String
  encodingName : Option String
deriving DecidableEq

/-- One inbound-stream notification (pad-added), together with the
outcomes of the external GStreamer operations the attachment performs:
whether gst_parse_bin_from_description succeeds (binOk), whether the
ghost sink pad is found (sinkPadOk), and whether gst_pad_link returns
GST_PAD_LINK_OK (linkOk). -/
structure PadEvent where
  direction : PadDirection
  caps : Option CapsInfo
  binOk : Bool
  sinkPadOk : Bool
  linkOk : Bool
deriving DecidableEq

/-- Observable steps of the attachment path in on_incoming_stream. -/
inductive AttachEffect where
  | log (message : String) : AttachEffect
  | buildChain : AttachEffect
  | addToPipeline : AttachEffect
  | linkAttempt : AttachEffect
deriving DecidableEq

namespace Receiver

/-- The caps log line of on_incoming_stream, with the source's "null"
fallbacks. -/
def capsLogLine (ci : CapsInfo) : String :=
  "[receiver] pad caps: " ++ ci.mediaType.getD ("null") ++
    ", encoding=" ++ ci.encodingName.getD ("null")

/-- Model of g_str_has_prefix: the second string starts with the first
(stated over character lists, which the kernel can evaluate). -/
def strStartsWith (p s : String) : Bool :=
  List.isPrefixOf p.data s.data

/-- The acceptance condition of on_incoming_stream, line 107: the
negation of `!media_type || !g_str_has_prefix(media_type,
"application/x-rtp") || !encoding || g_strcmp0(encoding, "H264") != 0`. -/
def rtpH264Caps (ci : CapsInfo) : Bool :=
  (match ci.mediaType with
   | some mt => strStartsWith ("application/x-rtp") mt
   | none => false) &&
  (match ci.encodingName with
   | some enc => enc = "H264"
   | none => false)

/-- receiver.c on_incoming_stream, lines 78-190, as a transition on the
video_chain_built flag.  Order of checks mirrors the source: pad
direction, the video_chain_built guard, caps presence, the
RTP-H264 match, then gst_parse_bin_from_description (buildChain),
gst_bin_add (addToPipeline), ghost-pad lookup, and gst_pad_link
(linkAttempt); only a successful link sets video_chain_built. -/
def on_incoming_stream (video_chain_built : Bool) (e : PadEvent) :
    Bool × List AttachEffect :=
  if e.direction ≠ .src then (video_chain_built, [])
  else if video_chain_built then
    (video_chain_built,
     [.log ("[receiver] Video chain already built, ignoring extra pad")])
  else
    match e.caps with
    | none => (false, [.log ("[receiver] No caps on incoming pad")])
    | some ci =>
        let matched := rtpH264Caps ci
        if !matched then
          (false, [.log (capsLogLine ci),
                   .log ("[receiver] Ignoring non-H264 pad")])
        else if !e.binOk then
          (false, [.log (capsLogLine ci), .buildChain,
                   .log ("[receiver] Failed to create H264 bin")])
        else if !e.sinkPadOk then
          (false, [.log (capsLogLine ci), .buildChain, .addToPipeline,
                   .log ("[receiver] rxbin has no ghost sink pad")])
        else if e.linkOk then
          (true, [.log (capsLogLine ci), .buildChain, .addToPipeline,
                  .linkAttempt, .log ("[receiver] H264 receiver bin linked")])
        else
          (false, [.log (capsLogLine ci), .buildChain, .addToPipeline,
                   .linkAttempt,
                   .log ("[receiver] Failed to link webrtc pad -> rxbin")])

/-- Folding on_incoming_stream over a sequence of pad notifications. -/
def runAttach (video_chain_built : Bool) :
    List PadEvent → Bool × List AttachEffect
  | [] => (video_chain_built, [])
  | e :: rest =>
      let p := on_incoming_stream video_chain_built e
      let q := runAttach p.1 rest
      (q.1, p.2 ++ q.2)

/-- The pad matches the policy: src direction, caps present, media type
prefixed by "application/x-rtp", encoding-name equal to "H264". -/
def padAccepts (e : PadEvent) : Bool :=
  (e.direction = PadDirection.src : Bool) &&
  (match e.caps with
   | some ci => rtpH264Caps ci
   | none => false)

/-- The notification leads to a successful attachment: accepted by the
policy and all three external steps succeed. -/
def attachSuccess (e : PadEvent) : Bool :=
  padAccepts e && e.binOk && e.sinkPadOk && e.linkOk

end Receiver

/-- The state of the soup websocket connection as seen through
soup_websocket_connection_get_state. -/
inductive WsState where
  | openState : WsState
  | closingState : WsState
  | closedState : WsState
deriving DecidableEq

/-- The process-scope handles cleanup_and_quit touches: the websocket
connection pointer (`none` models NULL), the pipeline pointer, and the
main-loop pointer, each reduced to what the teardown path reads. -/
structure LifecycleState where
  wsConn : Option WsState
  pipep : Bool
  loop : Bool
deriving DecidableEq

/-- Observable teardown steps: the diagnostic print, the websocket
close, the pipeline stop (set_state NULL + release), and the main-loop
quit + release. -/
inductive TearEffect where
  | diag (message : String) : TearEffect
  | closeTransport : TearEffect
  | stopPipeline : TearEffect
  | quitLoop : TearEffect
deriving DecidableEq

/-- True on the three effects the teardown claim names as observable
(transport close, pipeline stop, run-loop release); the per-call
diagnostic print is excluded by the claim's own enumeration. -/
def TearEffect.isObservable : TearEffect → Bool
  | .diag _ => false
  | _ => true

/-- cleanup_and_quit (identical in sender.c lines 53-78 and receiver.c
lines 46-71): print the reason if given; if the websocket handle is
non-NULL, close it when open (the handle stays set, its state leaves
OPEN) else release it (handle becomes NULL); stop and release the
pipeline if present; quit and release the main loop if present. -/
def cleanup_and_quit (msg : Option String) (s : LifecycleState) :
    LifecycleState × List TearEffect :=
  let d : List TearEffect :=
    match msg with
    | some m => [.diag m]
    | none => []
  let ws : Option WsState × List TearEffect :=
    match s.wsConn with
    | some .openState => (some .closingState, [.closeTransport])
    | some _ => (none, [])
    | none => (none, [])
  let pp : Bool × List TearEffect :=
    if s.pipep then (false, [.stopPipeline]) else (false, [])
  let lp : Bool × List TearEffect :=
    if s.loop then (false, [.quitLoop]) else (false, [])
  (⟨ws.1, pp.1, lp.1⟩, d ++ ws.2 ++ pp.2 ++ lp.2)

/-- Well-formedness of a SignalingMessage per the data model: the
media-line index of an ICE message is an unsigned 32-bit int. -/
def SignalingMessage.wf : SignalingMessage → Prop
  | .sdp _ _ => True
  | .ice _ i => i < 4294967296

/-- The integer stored under "ice"."sdpMLineIndex" in a wire document. -/
def iceWireIndex (j : Json) : Option Int :=
  match j with
  | .obj o =>
      match json_object_get_object_member o ("ice") with
      | some i =>
          match memberLookup i ("sdpMLineIndex") with
          | some (.int v) => some v
          | _ => none
      | none => none
  | _ => none

/-- A frame neither handler dispatches on: a parse failure, a
non-object root, or an object with neither an "sdp" nor an "ice"
member. -/
def undispatchedFrame : Option Json → Bool
  | none => true
  | some (.obj o) =>
      !(json_object_has_member o ("sdp")) &&
      !(json_object_has_member o ("ice"))
  | some _ => true

/-- The caps of the incoming pad fail the policy (wrong media type or
wrong codec). -/
def capsMismatch (ci : CapsInfo) : Bool :=
  !(Receiver.rtpH264Caps ci)

/-- The add-ice-candidate call (if any) the receiver handler performs
for a frame. -/
def Receiver.forwardedIce (f : Option Json) : Option Call :=
  match Receiver.handle_server_message f with
  | .forwardIce m c => some (.addIceCandidate m c)
  | _ => none

/-- The add-ice-candidate call (if any) the sender handler performs
for a frame. -/
def Sender.forwardedIce (f : Option Json) : Option Call :=
  match Sender.handle_server_message f with
  | .forwardIce m c => some (.addIceCandidate m c)
  | _ => none

/-
  Theorems.
-/

/-- The guint -> gint -> guint round trip on media-line indices. -/
theorem guint_gint_roundtrip (i : Nat) (h : i < 4294967296) :
    guint_of_gint (gint32_of_int (gint_of_guint i)) = i := by
  simp only [guint_of_gint, gint32_of_int, gint_of_guint, Int.ofNat_eq_coe]
  split_ifs <;> omega

/-- C2: decoding the document produced by encoding any constructible
SignalingMessage (SDP offer or answer with arbitrary text, ICE with
arbitrary candidate text and unsigned 32-bit media-line index, empty
candidate and index 0 included) yields exactly the original message. -/
theorem decode_encode_roundtrip (m : SignalingMessage) (h : m.wf) :
    decode (encode m) = some m := by
  cases m with
  | sdp kind t => cases kind <;> rfl
  | ice c i =>
      show some (SignalingMessage.ice c
        (guint_of_gint (gint32_of_int (gint_of_guint i)))) = some (.ice c i)
      rw [guint_gint_roundtrip i h]

/-- Witness for the round trip at the edge cases the claim names. -/
theorem decode_encode_roundtrip_witness :
    decode (encode (.ice ("") 0)) = some (.ice ("") 0) ∧
    decode (encode (.sdp .offer (""))) = some (.sdp .offer ("")) :=
  ⟨decode_encode_roundtrip (.ice ("") 0) (by norm_num [SignalingMessage.wf]),
   decode_encode_roundtrip (.sdp .offer ("")) trivial⟩

/-- C10: the wire sdpMLineIndex written by send_ice_candidate is the
32-bit signed cast of the unsigned media-line index: the index itself
below 2^31, and its negative two's-complement reinterpretation (index
minus 2^32) from 2^31 up, leaving the unsigned range on the wire. -/
theorem mlineIndex_wire_cast (candidate : String) (m : Nat)
    (h : m < 4294967296) :
    iceWireIndex (send_ice_json m candidate) = some (gint_of_guint m) ∧
    (m < 2147483648 → gint_of_guint m = (m : Int)) ∧
    (2147483648 ≤ m →
      gint_of_guint m = (m : Int) - 4294967296 ∧ gint_of_guint m < 0) := by
  refine ⟨rfl, ?_, ?_⟩
  · intro h1
    simp only [gint_of_guint, gint32_of_int, Int.ofNat_eq_coe]
    split_ifs <;> omega
  · intro h1
    simp only [gint_of_guint, gint32_of_int, Int.ofNat_eq_coe]
    constructor
    · split_ifs <;> omega
    · split_ifs <;> omega

/-- Witness: at media-line index 2^31 the encoded wire integer is the
negative value -2^31. -/
theorem mlineIndex_wire_cast_witness :
    iceWireIndex (send_ice_json 2147483648 ("a")) = some (-2147483648) := by
  have h := mlineIndex_wire_cast ("a") 2147483648 (by norm_num)
  have h2 := (h.2.2 (by norm_num)).1
  rw [h.1, h2]
  norm_num

/-- C6: teardown is idempotent in its observable side effects: after
one cleanup_and_quit, a second call emits no transport close, pipeline
stop, or run-loop release (only its per-call diagnostic, which the
claim's enumeration of observables excludes), so the observable
effects of calling twice equal those of calling once; the handle state
reached after the second call is the fully-released one and is a fixed
point of further calls. -/
theorem teardown_idempotent (msg1 msg2 : Option String)
    (s : LifecycleState) :
    ((cleanup_and_quit msg2 (cleanup_and_quit msg1 s).1).2).filter
        TearEffect.isObservable = [] ∧
    ((cleanup_and_quit msg1 s).2 ++
        (cleanup_and_quit msg2 (cleanup_and_quit msg1 s).1).2).filter
        TearEffect.isObservable =
      ((cleanup_and_quit msg1 s).2).filter TearEffect.isObservable ∧
    (cleanup_and_quit msg2 (cleanup_and_quit msg1 s).1).1 =
      ⟨none, false, false⟩ := by
  obtain ⟨ws, pp, lp⟩ := s
  rcases msg1 with _ | m1 <;> rcases msg2 with _ | m2 <;>
    rcases ws with _ | w <;> first
      | (rcases pp with _ | _ <;> rcases lp with _ | _ <;>
          exact ⟨rfl, rfl, rfl⟩)
      | (rcases w with _ | _ | _ <;> rcases pp with _ | _ <;>
          rcases lp with _ | _ <;> exact ⟨rfl, rfl, rfl⟩)

/-- C5 counterexample: the frame with document
obj [ice -> obj [candidate -> "x"]] lacks the sdpMLineIndex field, so
it matches neither wire shape and decode rejects it; yet the receiver
handler forwards an add-ice-candidate call (index defaulted to 0) to
the Media Engine, contradicting the claim that such frames cause no
Media Engine call. -/
theorem lenientIceDispatch_cx :
    decode (.obj [(("ice"), .obj [(("candidate"), .str ("x"))])]) = none ∧
    Receiver.handle_server_message
        (some (.obj [(("ice"), .obj [(("candidate"), .str ("x"))])])) =
      .forwardIce 0 (some ("x")) ∧
    Receiver.callsOf (Receiver.Action.forwardIce 0 (some ("x"))) =
      [.addIceCandidate 0 (some ("x"))] ∧
    Sender.handle_server_message
        (some (.obj [(("ice"), .obj [(("candidate"), .str ("x"))])])) =
      .forwardIce 0 (some ("x")) := by
  exact ⟨rfl, rfl, rfl, rfl⟩

/-- C5 amended: for malformed JSON, a non-object root, or an object
with neither an "sdp" nor an "ice" member, decode returns nothing and
both handlers do nothing at all: no negotiation state change, no
outgoing message, no Media Engine call, and also no diagnostic (the
source drops such frames silently).  (The original claim extended this
to every object matching neither full wire shape; the counterexample
shows objects with a partial "ice" member still reach the Media
Engine.) -/
theorem undispatched_frames_inert (f : Option Json)
    (h : undispatchedFrame f = true) :
    Receiver.handle_server_message f = .silent ∧
    Sender.handle_server_message f = .silent ∧
    Receiver.callsOf (Receiver.handle_server_message f) = [] ∧
    Sender.callsOf (Sender.handle_server_message f) = [] ∧
    (∀ s : Receiver.NegState, Receiver.negStep s (.frame f) = (s, [])) ∧
    (∀ j : Json, f = some j → decode j = none) := by
  have hrx : Receiver.handle_server_message f = .silent := by
    rcases f with _ | j
    · rfl
    · cases j with
      | obj o =>
          simp only [undispatchedFrame, Bool.and_eq_true, Bool.not_eq_true'] at h
          simp [Receiver.handle_server_message, h.1, h.2]
      | _ => rfl
  have htx : Sender.handle_server_message f = .silent := by
    rcases f with _ | j
    · rfl
    · cases j with
      | obj o =>
          simp only [undispatchedFrame, Bool.and_eq_true, Bool.not_eq_true'] at h
          simp [Sender.handle_server_message, h.1, h.2]
      | _ => rfl
  refine ⟨hrx, htx, by rw [hrx]; rfl, by rw [htx]; rfl, ?_, ?_⟩
  · intro s
    cases hc : s.crashed <;> simp [Receiver.negStep, hc, hrx, Receiver.callsOf]
  · intro j hj
    subst hj
    cases j with
    | obj o =>
        simp only [undispatchedFrame, Bool.and_eq_true, Bool.not_eq_true'] at h
        simp [decode, h.1, h.2]
    | _ => rfl

/-- Witness: the undispatched-frame guarantee at a parse failure and at
a plain-string root. -/
theorem undispatched_frames_inert_witness :
    Receiver.handle_server_message none = Receiver.Action.silent ∧
    Sender.handle_server_message (some (.str ("not json"))) =
      Sender.Action.silent :=
  ⟨(undispatched_frames_inert none rfl).1,
   (undispatched_frames_inert (some (.str ("not json"))) rfl).2.1⟩

/-- C8: a well-formed SDP message of the role's own kind is absorbed
silently: the receiver (Answerer) treats a type-"answer" frame, and the
sender (Offerer) a type-"offer" frame, as no action at all: no Media
Engine call, no outgoing message, no negotiation state change, and no
crash (the mismatch is not an error). -/
theorem roleMismatch_ignored (t : String) :
    Receiver.handle_server_message (some (encode (.sdp .answer t))) =
      Receiver.Action.silent ∧
    Sender.handle_server_message (some (encode (.sdp .offer t))) =
      Sender.Action.silent ∧
    Receiver.callsOf
        (Receiver.handle_server_message (some (encode (.sdp .answer t)))) = [] ∧
    Sender.callsOf
        (Sender.handle_server_message (some (encode (.sdp .offer t)))) = [] ∧
    (∀ s : Receiver.NegState,
      Receiver.negStep s (.frame (some (encode (.sdp .answer t)))) = (s, [])) := by
  refine ⟨rfl, rfl, rfl, rfl, ?_⟩
  intro s
  cases hc : s.crashed <;>
    simp [Receiver.negStep, hc, Receiver.handle_server_message,
      Receiver.callsOf, encode, send_sdp_json, sdpTypeString,
      json_object_has_member, json_object_get_object_member,
      json_object_get_string_member, memberLookup]

/-- C9: when a received object carries an "sdp" member, only the SDP
branch runs: whatever else the object carries (an "ice" member
included), neither handler ever emits an add-ice-candidate call for
that frame, because the dispatch is an exclusive else-if on the "sdp"
member. -/
theorem sdpBranch_precedence (o : List (String × Json))
    (h : json_object_has_member o ("sdp") = true) :
    (Receiver.callsOf
        (Receiver.handle_server_message (some (.obj o)))).filter
        Call.isAddIce = [] ∧
    (Sender.callsOf
        (Sender.handle_server_message (some (.obj o)))).filter
        Call.isAddIce = [] := by
  constructor
  · simp only [Receiver.handle_server_message, h, if_true]
    split
    · split <;> rfl
    · rfl
  · simp only [Sender.handle_server_message, h, if_true]
    split
    · split <;> rfl
    · rfl

/-- Witness: a frame carrying both a full SDP offer and a full ICE
candidate forwards nothing to add-ice-candidate in either role. -/
theorem sdpBranch_precedence_witness :
    (Receiver.callsOf (Receiver.handle_server_message (some (.obj
        [(("sdp"), .obj [(("type"), .str ("offer")), (("sdp"), .str ("v=0"))]),
         (("ice"), .obj [(("candidate"), .str ("c0")),
                         (("sdpMLineIndex"), .int 0)])])))).filter
      Call.isAddIce = [] :=
  (sdpBranch_precedence
    [(("sdp"), .obj [(("type"), .str ("offer")), (("sdp"), .str ("v=0"))]),
     (("ice"), .obj [(("candidate"), .str ("c0")),
                     (("sdpMLineIndex"), .int 0)])] rfl).1

/-- C7: an inbound src pad whose caps do not match the policy (media
type without the "application/x-rtp" prefix, or encoding-name other
than "H264") never triggers chain construction: video_chain_built is
unchanged, no buildChain effect is emitted, and the rejection is
logged. -/
theorem nonMatchingPad_rejected (b : Bool) (e : PadEvent) (ci : CapsInfo)
    (h1 : e.direction = .src) (h2 : e.caps = some ci)
    (h3 : capsMismatch ci = true) :
    (Receiver.on_incoming_stream b e).1 = b ∧
    AttachEffect.buildChain ∉ (Receiver.on_incoming_stream b e).2 ∧
    ∃ m, AttachEffect.log m ∈ (Receiver.on_incoming_stream b e).2 := by
  simp only [capsMismatch, Bool.not_eq_true'] at h3
  cases b <;>
    simp [Receiver.on_incoming_stream, h1, h2, h3]

/-- Witness: an audio pad (media type "audio...", no RTP prefix) is
rejected with no chain construction and no state change. -/
theorem nonMatchingPad_rejected_witness :
    (Receiver.on_incoming_stream false
        ⟨.src, some ⟨some ("audio/x-raw"), some ("OPUS")⟩,
         true, true, true⟩).1 = false :=
  (nonMatchingPad_rejected false
    ⟨.src, some ⟨some ("audio/x-raw"), some ("OPUS")⟩, true, true, true⟩
    ⟨some ("audio/x-raw"), some ("OPUS")⟩ rfl rfl (by decide)).1

namespace Receiver

/-- Once the video chain is built, a pad notification changes nothing
and never reaches chain construction. -/
theorem on_incoming_stream_built (e : PadEvent) :
    (on_incoming_stream true e).1 = true ∧
    AttachEffect.buildChain ∉ (on_incoming_stream true e).2 := by
  by_cases hd : e.direction = PadDirection.src <;>
    simp [on_incoming_stream, hd]

/-- From the unattached state, one notification attaches exactly when
the policy accepts the pad and bin creation, ghost-pad lookup, and
linking all succeed. -/
theorem on_incoming_stream_unbuilt (e : PadEvent) :
    (on_incoming_stream false e).1 = attachSuccess e := by
  obtain ⟨dir, caps, b1, b2, b3⟩ := e
  cases dir <;> rcases caps with _ | ci <;>
      simp [on_incoming_stream, attachSuccess, padAccepts] <;>
    first
      | rfl
      | (cases hm : rtpH264Caps ci <;> cases b1 <;> cases b2 <;> cases b3 <;>
          simp [hm])

/-- A built chain stays built across any sequence of notifications. -/
theorem runAttach_built (evs : List PadEvent) :
    (runAttach true evs).1 = true := by
  induction evs with
  | nil => rfl
  | cons e rest ih =>
      have h := (on_incoming_stream_built e).1
      simp only [runAttach]
      rw [h]
      exact ih

end Receiver

/-- C3: the attachment policy is exactly-once with failure retry.
For any single notification: once video_chain_built is true it stays
true with no chain-construction call; from the unattached state the
flag becomes true exactly when the notification matches the policy and
bin creation, ghost-pad lookup and pad linking all succeed (so any
failed attempt leaves it false for a later retry).  Over any
notification sequence from the unattached state, the flag ends true
iff some notification in it is a successful attach. -/
theorem streamAttach_exactly_once (e : PadEvent) (evs : List PadEvent) :
    (Receiver.on_incoming_stream true e).1 = true ∧
    AttachEffect.buildChain ∉ (Receiver.on_incoming_stream true e).2 ∧
    (Receiver.on_incoming_stream false e).1 = Receiver.attachSuccess e ∧
    ((Receiver.runAttach false evs).1 = true ↔
      ∃ x ∈ evs, Receiver.attachSuccess x = true) := by
  refine ⟨(Receiver.on_incoming_stream_built e).1,
    (Receiver.on_incoming_stream_built e).2,
    Receiver.on_incoming_stream_unbuilt e, ?_⟩
  induction evs with
  | nil => simp [Receiver.runAttach]
  | cons x rest ih =>
      simp only [Receiver.runAttach]
      rw [Receiver.on_incoming_stream_unbuilt x]
      cases hx : Receiver.attachSuccess x with
      | true =>
          simp only [Receiver.runAttach_built rest]
          simp [hx]
      | false =>
          rw [ih]
          simp [hx]

/-- Witness: a matching H264 pad with all external steps succeeding
attaches; the run over that single notification ends attached. -/
theorem streamAttach_exactly_once_witness :
    (Receiver.runAttach false
        [⟨.src, some ⟨some ("application/x-rtp"), some ("H264")⟩,
          true, true, true⟩]).1 = true :=
  (streamAttach_exactly_once
    ⟨.src, some ⟨some ("application/x-rtp"), some ("H264")⟩, true, true, true⟩
    [⟨.src, some ⟨some ("application/x-rtp"), some ("H264")⟩,
      true, true, true⟩]).2.2.2.mpr
    ⟨⟨.src, some ⟨some ("application/x-rtp"), some ("H264")⟩,
      true, true, true⟩, by simp, by decide⟩

/-- C4: ICE candidates are forwarded to the Media Engine immediately,
unconditionally, and in arrival order.  Over any crash-free frame
sequence, the add-ice-candidate calls each handler emits are exactly
the per-frame forwarded candidates, in arrival order, with no
buffering, dropping, or deduplication (a frame contributing one call
each time it appears); any frame decoding to an ICE message is
forwarded with exactly its candidate text and media-line index; and
the receiver forwards independently of its negotiation state. -/
theorem iceForwarding_order (frames : List (Option Json))
    (hr : ∀ f ∈ frames, Receiver.handle_server_message f ≠ .crash)
    (hs : ∀ f ∈ frames, Sender.handle_server_message f ≠ .crash) :
    (Receiver.run frames).filter Call.isAddIce =
      frames.filterMap Receiver.forwardedIce ∧
    (Sender.run frames).filter Call.isAddIce =
      frames.filterMap Sender.forwardedIce ∧
    (∀ (j : Json) (c : String) (m : Nat), decode j = some (.ice c m) →
      Receiver.handle_server_message (some j) = .forwardIce m (some c) ∧
      Sender.handle_server_message (some j) = .forwardIce m (some c)) ∧
    (∀ (s : Receiver.NegState) (f : Option Json) (m : Nat)
        (c : Option String), s.crashed = false →
      Receiver.handle_server_message f = .forwardIce m c →
      Receiver.negStep s (.frame f) = (s, [.addIceCandidate m c])) := by
  refine ⟨?_, ?_, ?_, ?_⟩
  · clear hs
    induction frames with
    | nil => rfl
    | cons f rest ih =>
        have hf := hr f (List.mem_cons_self f rest)
        have hrest : ∀ g ∈ rest, Receiver.handle_server_message g ≠ .crash :=
          fun g hg => hr g (List.mem_cons_of_mem f hg)
        simp only [Receiver.run, List.filterMap_cons]
        cases ha : Receiver.handle_server_message f with
        | crash => exact absurd ha hf
        | silent =>
            simp [Receiver.forwardedIce, ha, Receiver.callsOf, ih hrest]
        | applyOffer t =>
            simp [Receiver.forwardedIce, ha, Receiver.callsOf,
              List.filter_cons, Call.isAddIce, ih hrest]
        | forwardIce m c =>
            simp [Receiver.forwardedIce, ha, Receiver.callsOf,
              List.filter_cons, Call.isAddIce, ih hrest]
  · clear hr
    induction frames with
    | nil => rfl
    | cons f rest ih =>
        have hf := hs f (List.mem_cons_self f rest)
        have hrest : ∀ g ∈ rest, Sender.handle_server_message g ≠ .crash :=
          fun g hg => hs g (List.mem_cons_of_mem f hg)
        simp only [Sender.run, List.filterMap_cons]
        cases ha : Sender.handle_server_message f with
        | crash => exact absurd ha hf
        | silent =>
            simp [Sender.forwardedIce, ha, Sender.callsOf, ih hrest]
        | applyAnswer t =>
            simp [Sender.forwardedIce, ha, Sender.callsOf,
              List.filter_cons, Call.isAddIce, ih hrest]
        | forwardIce m c =>
            simp [Sender.forwardedIce, ha, Sender.callsOf,
              List.filter_cons, Call.isAddIce, ih hrest]
  · intro j c m hd
    cases j with
    | obj o =>
        simp only [decode] at hd
        by_cases h1 : json_object_has_member o ("sdp") = true
        · exfalso
          rw [if_pos h1] at hd
          split at hd
          · split at hd
            · split_ifs at hd <;> simp at hd
            · exact Option.noConfusion hd
          · exact Option.noConfusion hd
        · rw [if_neg h1] at hd
          by_cases h2 : json_object_has_member o ("ice") = true
          · rw [if_pos h2] at hd
            split at hd
            next i h3 =>
              split at hd
              next cc v h4 h5 =>
                simp only [Option.some.injEq,
                  SignalingMessage.ice.injEq] at hd
                obtain ⟨hc, hm⟩ := hd
                subst hc
                have hint : json_object_get_int_member
                    (json_object_get_object_member o ("ice"))
                    ("sdpMLineIndex") = v := by
                  rw [h3]
                  simp [json_object_get_int_member, h5]
                have hcand : json_object_get_string_member
                    (json_object_get_object_member o ("ice"))
                    ("candidate") = some cc := by
                  rw [h3]; exact h4
                constructor
                · simp only [Receiver.handle_server_message]
                  rw [if_neg h1, if_pos h2, hint, hcand, hm]
                · simp only [Sender.handle_server_message]
                  rw [if_neg h1, if_pos h2, hint, hcand, hm]
              next => exact Option.noConfusion hd
            next h3 => exact Option.noConfusion hd
          · rw [if_neg h2] at hd
            exact Option.noConfusion hd
    | _ => exact absurd hd (by simp [decode])
  · intro s f m c hcr hfw
    simp [Receiver.negStep, hcr, hfw, Receiver.callsOf]

/-- Witness: two candidates (one a duplicate shape of the other's
fields) arriving around an offer are forwarded in arrival order. -/
theorem iceForwarding_order_witness :
    (Receiver.run [some (send_ice_json 0 ("c0")),
                   some (send_sdp_json .offer ("v=0")),
                   some (send_ice_json 0 ("c0"))]).filter Call.isAddIce =
      [.addIceCandidate 0 (some ("c0")), .addIceCandidate 0 (some ("c0"))] := by
  have h := iceForwarding_order
    [some (send_ice_json 0 ("c0")),
     some (send_sdp_json .offer ("v=0")),
     some (send_ice_json 0 ("c0"))]
    (by intro f hf; fin_cases hf <;> simp [Receiver.handle_server_message,
      send_ice_json, send_sdp_json, sdpTypeString, json_object_has_member,
      json_object_get_object_member, json_object_get_string_member,
      memberLookup, json_object_get_int_member])
    (by intro f hf; fin_cases hf <;> simp [Sender.handle_server_message,
      send_ice_json, send_sdp_json, sdpTypeString, json_object_has_member,
      json_object_get_object_member, json_object_get_string_member,
      memberLookup, json_object_get_int_member])
  rw [h.1]
  rfl

namespace Receiver

/-- After the crash a frame can cause, no further events run. -/
theorem negRun_crashed (s : NegState) (h : s.crashed = true)
    (evs : List NegEvent) : negRun s evs = (s, []) := by
  induction evs with
  | nil => rfl
  | cons e rest ih => simp [negRun, negStep, h, ih]

/-- The receiver handler itself never emits a create-answer request;
only the completion of a registered set-remote-description promise
does. -/
theorem callsOf_no_createAnswer (a : Action) :
    (callsOf a).countP Call.isCreateAnswer = 0 := by
  cases a <;> rfl

/-- Invariant: in any run, create-answer requests are bounded by the
offer frames seen plus the set-remote promises already outstanding. -/
theorem negRun_createAnswer_bound (evs : List NegEvent) (s : NegState)
    (h : s.crashed = false) :
    ((negRun s evs).2).countP Call.isCreateAnswer ≤
      evs.countP NegEvent.isOfferFrame + s.pendingOfferSet := by
  induction evs generalizing s with
  | nil => simp [negRun]
  | cons e rest ih =>
      simp only [negRun, List.countP_cons, List.countP_append]
      cases e with
      | frame f =>
          cases ha : handle_server_message f with
          | crash =>
              simp only [negStep, h, Bool.false_eq_true, if_false, ha]
              rw [negRun_crashed ⟨s.pendingOfferSet, s.pendingAnswer,
                true, s.wsOpen⟩ rfl rest]
              simp [NegEvent.isOfferFrame, ha]
          | applyOffer t =>
              simp only [negStep, h, Bool.false_eq_true, if_false, ha]
              have hb := ih ⟨s.pendingOfferSet + 1, s.pendingAnswer,
                false, s.wsOpen⟩ rfl
              simp [NegEvent.isOfferFrame, ha,
                callsOf_no_createAnswer] at hb ⊢
              omega
          | silent =>
              simp only [negStep, h, Bool.false_eq_true, if_false, ha]
              have hb := ih s h
              simp [NegEvent.isOfferFrame, ha,
                callsOf_no_createAnswer] at hb ⊢
              omega
          | forwardIce m c =>
              simp only [negStep, h, Bool.false_eq_true, if_false, ha]
              have hb := ih s h
              simp [NegEvent.isOfferFrame, ha,
                callsOf_no_createAnswer] at hb ⊢
              omega
      | offerSetComplete =>
          simp only [negStep, h, Bool.false_eq_true, if_false]
          by_cases hp : s.pendingOfferSet > 0
          · rw [if_pos hp]
            have hb := ih ⟨s.pendingOfferSet - 1, s.pendingAnswer + 1,
              false, s.wsOpen⟩ rfl
            simp only [NegEvent.isOfferFrame] at hb ⊢
            simp only [List.countP_cons, List.countP_nil] at hb ⊢
            simp [Call.isCreateAnswer] at hb ⊢
            omega
          · rw [if_neg hp]
            have hb := ih s h
            simp only [NegEvent.isOfferFrame] at hb ⊢
            simp at hb ⊢
            omega
      | answerCreated t =>
          simp only [negStep, h, Bool.false_eq_true, if_false]
          by_cases hp : s.pendingAnswer > 0
          · rw [if_pos hp]
            have hb := ih ⟨s.pendingOfferSet, s.pendingAnswer - 1,
              false, s.wsOpen⟩ rfl
            simp only [NegEvent.isOfferFrame] at hb ⊢
            cases hw : s.wsOpen <;>
              simp [hw, Call.isCreateAnswer] at hb ⊢ <;> omega
          · rw [if_neg hp]
            have hb := ih s h
            simp only [NegEvent.isOfferFrame] at hb ⊢
            simp at hb ⊢
            omega

end Receiver

/-- The sender handler never emits a create-offer request. -/
theorem Sender.callsOf_no_createOffer (a : Sender.Action) :
    (Sender.callsOf a).countP Call.isCreateOffer = 0 := by
  cases a <;> rfl

/-- C1 counterexample: after a complete offer/answer exchange (offer
frame, remote-description applied, answer created and sent), delivering
a second well-formed SDP offer and letting its set-remote-description
promise complete makes the receiver emit a second create-answer
request: the session issues two createAnswer requests, not at most
one. -/
theorem secondOffer_secondAnswer_cx :
    ((Receiver.negRun Receiver.negInit
        [.frame (some (send_sdp_json .offer ("v=0 first"))),
         .offerSetComplete,
         .answerCreated ("v=0 answer"),
         .frame (some (send_sdp_json .offer ("v=0 second"))),
         .offerSetComplete]).2).countP Call.isCreateAnswer = 2 := by
  rfl

/-- C1 amended: create requests are bounded per offer, not per
session: over any event sequence the receiver issues at most one
create-answer request per SDP offer frame received (each completed
remote-offer application yields one), and message handling never
issues any create-offer in the sender role nor a direct create-answer
in the receiver's frame handler; a second offer does yield a second
create-answer (see the counterexample). -/
theorem createRequests_per_offer :
    (∀ evs : List Receiver.NegEvent,
      ((Receiver.negRun Receiver.negInit evs).2).countP
          Call.isCreateAnswer ≤
        evs.countP Receiver.NegEvent.isOfferFrame) ∧
    (∀ frames : List (Option Json),
      (Sender.run frames).countP Call.isCreateOffer = 0) ∧
    (∀ frames : List (Option Json),
      (Receiver.run frames).countP Call.isCreateAnswer = 0) := by
  refine ⟨?_, ?_, ?_⟩
  · intro evs
    have h := Receiver.negRun_createAnswer_bound evs Receiver.negInit rfl
    simpa [Receiver.negInit] using h
  · intro frames
    induction frames with
    | nil => rfl
    | cons f rest ih =>
        simp only [Sender.run]
        cases ha : Sender.handle_server_message f <;>
          simp [List.countP_append, Sender.callsOf_no_createOffer, ih]
  · intro frames
    induction frames with
    | nil => rfl
    | cons f rest ih =>
        simp only [Receiver.run]
        cases ha : Receiver.handle_server_message f <;>
          simp [List.countP_append, Receiver.callsOf_no_createAnswer, ih]
